import Mathlib

/-!
Verification of the lead ingestion and deduplication pipeline of the
growth-agent repository, shallowly embedded in Lean.

Conventions of the embedding:
* TypeScript optional string fields (`email?: string`) become `Option String`;
  JavaScript truthiness of such a field (`lead.email && ...`) is `truthy`,
  which is false exactly on `none` and `some ""`.
* The external Airtable store is an oracle (`Store`): `fetchExisting` is the
  outcome the snapshot read would have if attempted, `createResult` the outcome
  of `table.create` for a given lead.  Asynchronous effects become explicit
  fields of the result record (`fetchAttempted`, `createAttempted`, ...).
* Timestamps (`new Date()`) are a `Nat` parameter `now`; numeric payloads
  (rating, counts) are `Nat`.
-/

namespace GrowthAgent

/-- `source` enum of the Lead interface (src/types/index.ts). -/
inductive Source where
  | instagram
  | google
  | email
  | website
deriving DecidableEq, Repr

/-- `status` enum of the Lead interface (src/types/index.ts). -/
inductive Status where
  | new
  | contacted
  | replied
  | qualified
  | hot_lead
  | closed
deriving DecidableEq, Repr

/-- InstagramPost (src/types/index.ts); `postedAt` is a millisecond timestamp. -/
structure InstagramPost where
  id : String
  caption : String
  imageUrl : String
  likeCount : Nat
  commentCount : Nat
  postedAt : Nat
deriving DecidableEq, Repr

/-- The canonical Lead record (src/types/index.ts). -/
structure Lead where
  id : Option String := none
  source : Source
  businessName : String
  ownerName : Option String := none
  email : Option String := none
  phone : Option String := none
  instagramHandle : Option String := none
  website : Option String := none
  address : Option String := none
  bio : Option String := none
  description : Option String := none
  followerCount : Option Nat := none
  rating : Option Nat := none
  reviewCount : Option Nat := none
  category : String := ""
  city : String := ""
  location : String := ""
  recentPosts : List InstagramPost := []
  businessHours : List (String × String) := []
  status : Status
  lastContactedAt : Option Nat := none
  notes : Option String := none
  createdAt : Nat
  updatedAt : Nat
deriving DecidableEq, Repr

/-- JavaScript truthiness of an optional string: false on `undefined` and `""`. -/
def truthy : Option String → Bool
  | none => false
  | some s => !(s == "")

/-- JavaScript truthiness of a required string field. -/
def truthyS (s : String) : Bool := !(s == "")

/-- JavaScript truthiness of an optional number: false on `undefined` and `0`. -/
def truthyN : Option Nat → Bool
  | none => false
  | some n => !(n == 0)

/-- The identity-field projection of an existing Airtable record, as read by
`table.select({fields: [...]})` in `saveLeadsToAirtable`. -/
structure ExistingRecord where
  businessName : Option String := none
  instagramHandle : Option String := none
  email : Option String := none
  phone : Option String := none
  address : Option String := none
  source : Option String := none
deriving DecidableEq, Repr

/-- The identifiers one existing record contributes to `existingIdentifiers`
(the `existingRecords.forEach` block of `saveLeadsToAirtable`). -/
def recordIdentifiers (r : ExistingRecord) : List String :=
  (if truthy r.instagramHandle then ["ig:" ++ r.instagramHandle.getD ""] else [])
  ++ (if truthy r.email then ["email:" ++ (r.email.getD "").toLower] else [])
  ++ (if truthy r.businessName && truthy r.address then
        ["business:" ++ (r.businessName.getD "").toLower ++ "-" ++ (r.address.getD "").toLower]
      else [])
  ++ (if truthy r.businessName && truthy r.phone then
        ["phone:" ++ (r.businessName.getD "").toLower ++ "-" ++ r.phone.getD ""]
      else [])

/-- The `existingIdentifiers` set built from the snapshot (modelled as a list;
only membership is consulted). -/
def existingIdentifiers (recs : List ExistingRecord) : List String :=
  recs.flatMap recordIdentifiers

/-- The identity keys a candidate lead would look up, mirroring the four
checks of the dedup filter in candidate order. -/
def leadIdentifiers (l : Lead) : List String :=
  (if truthy l.instagramHandle then ["ig:" ++ l.instagramHandle.getD ""] else [])
  ++ (if truthy l.email then ["email:" ++ (l.email.getD "").toLower] else [])
  ++ (if truthyS l.businessName && truthy l.address then
        ["business:" ++ l.businessName.toLower ++ "-" ++ (l.address.getD "").toLower]
      else [])
  ++ (if truthyS l.businessName && truthy l.phone then
        ["phone:" ++ l.businessName.toLower ++ "-" ++ l.phone.getD ""]
      else [])

/-- The dedup filter predicate of `saveLeadsToAirtable` (`leads.filter(lead => ...)`):
four sequential checks, each guarded by field truthiness; returns `false`
(duplicate) as soon as one emitted key is in the existing set. -/
def isNewLead (existing : List String) (l : Lead) : Bool :=
  if truthy l.instagramHandle && existing.contains ("ig:" ++ l.instagramHandle.getD "") then
    false
  else if truthy l.email && existing.contains ("email:" ++ (l.email.getD "").toLower) then
    false
  else if truthyS l.businessName && truthy l.address
      && existing.contains
        ("business:" ++ l.businessName.toLower ++ "-" ++ (l.address.getD "").toLower) then
    false
  else if truthyS l.businessName && truthy l.phone
      && existing.contains ("phone:" ++ l.businessName.toLower ++ "-" ++ l.phone.getD "") then
    false
  else
    true

/-- Boolean shape of the four sequential dedup checks. -/
theorem ifChain_eq (g1 c1 g2 c2 g3 c3 g4 c4 : Bool) :
    (if g1 && c1 then false
     else if g2 && c2 then false
     else if g3 && c3 then false
     else if g4 && c4 then false
     else true)
    = !((g1 && c1) || (g2 && c2) || (g3 && c3) || (g4 && c4)) := by
  cases g1 <;> cases c1 <;> cases g2 <;> cases c2 <;> cases g3 <;> cases c3 <;>
    cases g4 <;> cases c4 <;> rfl

/-- The sequential filter is the negation of "some emitted key is present". -/
theorem isNewLead_eq_not_any (existing : List String) (l : Lead) :
    isNewLead existing l = !((leadIdentifiers l).any (fun k => existing.contains k)) := by
  unfold isNewLead leadIdentifiers
  rw [ifChain_eq]
  cases h1 : truthy l.instagramHandle <;>
    cases h2 : truthy l.email <;>
      cases h3 : truthyS l.businessName <;>
        cases h4 : truthy l.address <;>
          cases h5 : truthy l.phone <;>
            simp [Bool.and_assoc]

/-- Claim C1: inside `saveLeadsToAirtable`, a candidate is classified as a
duplicate (filtered out) if and only if at least one of its emitted identity
keys — exact `ig:` handle, lower-cased `email:`, lower-cased
`business:name-address`, `phone:lowername-phone`, each emitted only when its
required fields are non-empty — equals a key derived from some existing
record; the four criteria are OR'd. -/
theorem dedupFilter_duplicate_iff_key_match (recs : List ExistingRecord) (l : Lead) :
    isNewLead (existingIdentifiers recs) l = false ↔
      ∃ k, k ∈ leadIdentifiers l ∧ ∃ r ∈ recs, k ∈ recordIdentifiers r := by
  rw [isNewLead_eq_not_any]
  simp [existingIdentifiers, List.any_eq_true, List.mem_flatMap]

/-! ### The batch ingestion operation `saveLeadsToAirtable` -/

/-- Oracle for the external Airtable store within one run: the outcome the
snapshot read (`table.select(...).all()`) would have if attempted, and the
outcome of `table.create` for a given lead. -/
structure Store where
  fetchExisting : Except String (List ExistingRecord)
  createResult : Lead → Except String Unit

/-- The error-log object written to `error-log.json` when some create failed
(timestamp and static suggestion field omitted). -/
structure ErrorLog where
  savedCount : Nat
  failedCount : Nat
  errors : List String
deriving DecidableEq, Repr

/-- Observable outcome of one `saveLeadsToAirtable` run: the value/exception
returned to the caller, which store operations were attempted, the internal
accumulators of the persist loop, and the error log written (if any). -/
structure SaveOutcome where
  retval : Except String Unit
  fetchAttempted : Bool
  createAttempted : List Lead
  savedCount : Nat
  failedCount : Nat
  errors : List String
  errorLog : Option ErrorLog

/-- The per-record persist loop (`for (const lead of newLeads)` with its inner
try/catch): returns (savedCount, failedCount, errors) accumulated in order. -/
def persistLeads (store : Store) : List Lead → Nat × Nat × List String
  | [] => (0, 0, [])
  | l :: rest =>
    match store.createResult l with
    | Except.ok _ =>
      let r := persistLeads store rest
      (r.1 + 1, r.2.1, r.2.2)
    | Except.error e =>
      let r := persistLeads store rest
      (r.1, r.2.1 + 1, ("Failed to save " ++ l.businessName ++ ": " ++ e) :: r.2.2)

/-- Embedding of `saveLeadsToAirtable` (src/utils/airtable.ts): early return on
an empty batch, snapshot fetch (whose exception propagates via the outer
try/catch), dedup filter, early return when nothing is new, per-record persist
loop with record-level error recovery, and the capped error log
(`errors.slice(0, 10)`). -/
def saveLeadsToAirtable (store : Store) (leads : List Lead) : SaveOutcome :=
  if leads.length == 0 then
    { retval := Except.ok (), fetchAttempted := false, createAttempted := [],
      savedCount := 0, failedCount := 0, errors := [], errorLog := none }
  else
    match store.fetchExisting with
    | Except.error e =>
      { retval := Except.error e, fetchAttempted := true, createAttempted := [],
        savedCount := 0, failedCount := 0, errors := [], errorLog := none }
    | Except.ok recs =>
      let existing := existingIdentifiers recs
      let newLeads := leads.filter (fun l => isNewLead existing l)
      if newLeads.length == 0 then
        { retval := Except.ok (), fetchAttempted := true, createAttempted := [],
          savedCount := 0, failedCount := 0, errors := [], errorLog := none }
      else
        let r := persistLeads store newLeads
        { retval := Except.ok (), fetchAttempted := true, createAttempted := newLeads,
          savedCount := r.1, failedCount := r.2.1, errors := r.2.2,
          errorLog :=
            if r.2.2.length == 0 then none
            else some { savedCount := r.1, failedCount := r.2.1, errors := r.2.2.take 10 } }

/-- The accepted sublist produced by the dedup filter. -/
def acceptedLeads (existing : List String) (leads : List Lead) : List Lead :=
  leads.filter (fun l => isNewLead existing l)

/-- The rejected (duplicate) sublist: the complement of the filter. -/
def rejectedLeads (existing : List String) (leads : List Lead) : List Lead :=
  leads.filter (fun l => !(isNewLead existing l))

/-- Whether a create outcome succeeded. -/
def isOkB : Except String Unit → Bool
  | Except.ok _ => true
  | Except.error _ => false

theorem persistLeads_saved (store : Store) (ls : List Lead) :
    (persistLeads store ls).1 = ls.countP (fun l => isOkB (store.createResult l)) := by
  induction ls with
  | nil => rfl
  | cons l rest ih =>
    unfold persistLeads
    cases h : store.createResult l <;>
      simp [List.countP_cons, h, isOkB, ih]

theorem persistLeads_failed (store : Store) (ls : List Lead) :
    (persistLeads store ls).2.1 = ls.countP (fun l => !(isOkB (store.createResult l))) := by
  induction ls with
  | nil => rfl
  | cons l rest ih =>
    unfold persistLeads
    cases h : store.createResult l <;>
      simp [List.countP_cons, h, isOkB, ih]

theorem persistLeads_errors_length (store : Store) (ls : List Lead) :
    (persistLeads store ls).2.2.length = (persistLeads store ls).2.1 := by
  induction ls with
  | nil => rfl
  | cons l rest ih =>
    unfold persistLeads
    cases h : store.createResult l <;> simp [ih]

/-- Claim C10: an empty input batch returns successfully at once — no snapshot
read, no create, no error log — for every store, reachable or not. -/
theorem empty_batch_no_store_ops (store : Store) :
    (saveLeadsToAirtable store []).retval = Except.ok ()
    ∧ (saveLeadsToAirtable store []).fetchAttempted = false
    ∧ (saveLeadsToAirtable store []).createAttempted = []
    ∧ (saveLeadsToAirtable store []).errorLog = none := by
  exact ⟨rfl, rfl, rfl, rfl⟩

/-- Claim C5: the dedup split is a partition of the batch — accepted and
rejected are order-preserving subsequences, every candidate occurrence lands in
exactly one of them, and no lead is in both. -/
theorem dedup_split_is_partition (existing : List String) (leads : List Lead) :
    (acceptedLeads existing leads).Sublist leads
    ∧ (rejectedLeads existing leads).Sublist leads
    ∧ (∀ l : Lead,
        (acceptedLeads existing leads).count l + (rejectedLeads existing leads).count l
          = leads.count l)
    ∧ (∀ l : Lead, ¬(l ∈ acceptedLeads existing leads ∧ l ∈ rejectedLeads existing leads)) := by
  refine ⟨List.filter_sublist leads, List.filter_sublist leads, ?_, ?_⟩
  · intro l
    induction leads with
    | nil => rfl
    | cons a t ih =>
      cases h : isNewLead existing a <;>
        simp only [acceptedLeads, rejectedLeads, List.filter_cons, h, Bool.not_true,
          Bool.not_false, if_true, if_false, List.count_cons, ite_true, ite_false] at ih ⊢ <;>
        by_cases hl : l = a <;>
          simp [hl, List.count_cons] at ih ⊢ <;>
          omega
  · intro l ⟨ha, hr⟩
    rw [acceptedLeads, List.mem_filter] at ha
    rw [rejectedLeads, List.mem_filter] at hr
    rw [ha.2] at hr
    simp at hr

/-- Two candidate leads sharing an email, arriving in one batch. -/
def cafeLeadA : Lead :=
  { source := Source.instagram, businessName := "Cafe A", email := some "owner@cafe.com",
    status := Status.new, createdAt := 0, updatedAt := 0 }

/-- Second candidate with the same email as `cafeLeadA`. -/
def cafeLeadB : Lead :=
  { source := Source.google, businessName := "Cafe B", email := some "owner@cafe.com",
    status := Status.new, createdAt := 0, updatedAt := 0 }

/-- A reachable store with an empty snapshot whose creates all succeed. -/
def emptyStoreOk : Store :=
  { fetchExisting := Except.ok [], createResult := fun _ => Except.ok () }

/-- Claim C2 fails on the code: two batch-mates share a dedup key (same
non-empty email) and no pre-existing record matches, yet BOTH are accepted and
persisted — the filter never adds accepted candidates' keys to the seen set, so
the later one is not rejected. -/
theorem batch_internal_dedup_cex :
    cafeLeadA.email = cafeLeadB.email
    ∧ truthy cafeLeadA.email = true
    ∧ (saveLeadsToAirtable emptyStoreOk [cafeLeadA, cafeLeadB]).createAttempted
        = [cafeLeadA, cafeLeadB]
    ∧ (saveLeadsToAirtable emptyStoreOk [cafeLeadA, cafeLeadB]).savedCount = 2
    ∧ rejectedLeads (existingIdentifiers []) [cafeLeadA, cafeLeadB] = [] :=
  ⟨rfl, rfl, rfl, rfl, rfl⟩

/-- Claim C2 (amended): candidates are checked only against the pre-existing
snapshot — accepted candidates' keys are not added to any seen set — so when no
existing record matches either of two batch-mates, both are accepted, even if
they share an identity key. -/
theorem batch_dedup_snapshot_only (existing : List String) (l1 l2 : Lead)
    (h1 : isNewLead existing l1 = true) (h2 : isNewLead existing l2 = true) :
    acceptedLeads existing [l1, l2] = [l1, l2]
    ∧ rejectedLeads existing [l1, l2] = [] := by
  constructor
  · simp [acceptedLeads, List.filter_cons, h1, h2]
  · simp [rejectedLeads, List.filter_cons, h1, h2]

/-- Witness for `batch_dedup_snapshot_only` at the shared-email pair against an
empty snapshot. -/
theorem batch_dedup_snapshot_only_witness :
    acceptedLeads [] [cafeLeadA, cafeLeadB] = [cafeLeadA, cafeLeadB]
    ∧ rejectedLeads [] [cafeLeadA, cafeLeadB] = [] :=
  batch_dedup_snapshot_only [] cafeLeadA cafeLeadB rfl rfl

/-- Claim C3: on a non-empty batch the operation surfaces an exception exactly
when the snapshot fetch fails; when the fetch succeeds, every accepted lead has
its create attempted (a per-record failure is caught, counted as failed, and
does not stop the remaining creates), and the operation itself returns
normally. -/
theorem save_error_iff_fetch_error (store : Store) (leads : List Lead) (h : leads ≠ []) :
    (∀ e, (saveLeadsToAirtable store leads).retval = Except.error e
        ↔ store.fetchExisting = Except.error e)
    ∧ (∀ recs, store.fetchExisting = Except.ok recs →
        (saveLeadsToAirtable store leads).retval = Except.ok ()
        ∧ (saveLeadsToAirtable store leads).createAttempted
            = acceptedLeads (existingIdentifiers recs) leads
        ∧ (saveLeadsToAirtable store leads).savedCount
            = (acceptedLeads (existingIdentifiers recs) leads).countP
                (fun l => isOkB (store.createResult l))
        ∧ (saveLeadsToAirtable store leads).failedCount
            = (acceptedLeads (existingIdentifiers recs) leads).countP
                (fun l => !(isOkB (store.createResult l)))) := by
  have hlen : (leads.length == 0) = false := by
    simp [List.length_eq_zero, h]
  constructor
  · intro e
    unfold saveLeadsToAirtable
    rw [hlen]
    cases hf : store.fetchExisting with
    | error e2 => simp
    | ok recs =>
      simp only [Bool.false_eq_true, if_false]
      constructor
      · intro hret
        by_cases hn : ((leads.filter (fun l => isNewLead (existingIdentifiers recs) l)).length == 0) = true <;>
          simp [hn] at hret
      · intro hbad
        exact absurd hbad (by simp)
  · intro recs hf
    unfold saveLeadsToAirtable
    rw [hlen]
    simp only [Bool.false_eq_true, if_false, hf]
    by_cases hn : ((leads.filter (fun l => isNewLead (existingIdentifiers recs) l)).length == 0) = true
    · have hnil : leads.filter (fun l => isNewLead (existingIdentifiers recs) l) = [] := by
        rw [← List.length_eq_zero]
        simpa using hn
      simp [hn, acceptedLeads, hnil]
    · simp [hn, acceptedLeads, persistLeads_saved, persistLeads_failed]

/-- Witness for `save_error_iff_fetch_error`: a singleton batch against the
reachable empty store returns normally. -/
theorem save_error_iff_fetch_error_witness :
    (saveLeadsToAirtable emptyStoreOk [cafeLeadA]).retval = Except.ok () :=
  ((save_error_iff_fetch_error emptyStoreOk [cafeLeadA] (List.cons_ne_nil _ _)).2 [] rfl).1

/-- Claim C4 fails on the code: `saveLeadsToAirtable` returns void, so the value
handed to the caller contains no counts — two runs with different numbers of
input, persisted and duplicate records return the identical value. -/
theorem save_returns_no_summary_cex :
    (saveLeadsToAirtable emptyStoreOk [cafeLeadA]).retval
      = (saveLeadsToAirtable emptyStoreOk [cafeLeadA, cafeLeadB]).retval
    ∧ ([cafeLeadA] : List Lead).length ≠ ([cafeLeadA, cafeLeadB] : List Lead).length :=
  ⟨rfl, by decide⟩

/-- Claim C4 (amended): the operation returns void (no summary value); the
counts of persisted and failed records and the per-failure messages are only
accumulated internally, and are written to the error log — capped to the first
ten messages — exactly when some record failed to persist. -/
theorem save_summary_internal_only (store : Store) (leads : List Lead)
    (recs : List ExistingRecord) (h : leads ≠ []) (hf : store.fetchExisting = Except.ok recs) :
    (saveLeadsToAirtable store leads).retval = Except.ok ()
    ∧ (saveLeadsToAirtable store leads).errors.length
        = (saveLeadsToAirtable store leads).failedCount
    ∧ (saveLeadsToAirtable store leads).errorLog
        = (if (saveLeadsToAirtable store leads).errors = [] then none
           else some { savedCount := (saveLeadsToAirtable store leads).savedCount,
                       failedCount := (saveLeadsToAirtable store leads).failedCount,
                       errors := (saveLeadsToAirtable store leads).errors.take 10 }) := by
  have hlen : (leads.length == 0) = false := by
    simp [List.length_eq_zero, h]
  unfold saveLeadsToAirtable
  rw [hlen]
  simp only [Bool.false_eq_true, if_false, hf]
  by_cases hn : ((leads.filter (fun l => isNewLead (existingIdentifiers recs) l)).length == 0) = true
  · simp [hn]
  · simp only [hn, Bool.false_eq_true, if_false]
    refine ⟨by trivial, persistLeads_errors_length store _, ?_⟩
    by_cases he : (persistLeads store
        (leads.filter (fun l => isNewLead (existingIdentifiers recs) l))).2.2 = []
    · simp [he]
    · have : ((persistLeads store
          (leads.filter (fun l => isNewLead (existingIdentifiers recs) l))).2.2.length == 0)
            = false := by
        simp [List.length_eq_zero, he]
      simp [this, he]

/-- Witness for `save_summary_internal_only`: on the singleton batch against the
reachable empty store with all creates succeeding, no error log is written. -/
theorem save_summary_internal_only_witness :
    (saveLeadsToAirtable emptyStoreOk [cafeLeadA]).retval = Except.ok ()
    ∧ (saveLeadsToAirtable emptyStoreOk [cafeLeadA]).errors.length
        = (saveLeadsToAirtable emptyStoreOk [cafeLeadA]).failedCount
    ∧ (saveLeadsToAirtable emptyStoreOk [cafeLeadA]).errorLog
        = (if (saveLeadsToAirtable emptyStoreOk [cafeLeadA]).errors = [] then none
           else some { savedCount := (saveLeadsToAirtable emptyStoreOk [cafeLeadA]).savedCount,
                       failedCount := (saveLeadsToAirtable emptyStoreOk [cafeLeadA]).failedCount,
                       errors := (saveLeadsToAirtable emptyStoreOk [cafeLeadA]).errors.take 10 }) :=
  save_summary_internal_only emptyStoreOk [cafeLeadA] [] (List.cons_ne_nil _ _) rfl

/-- A reachable store with an empty snapshot whose every create fails with the
same store-side message. -/
def failingStore : Store :=
  { fetchExisting := Except.ok [],
    createResult := fun _ => Except.error "INVALID_VALUE_FOR_COLUMN" }

/-- A minimal lead carrying only a business name. -/
def namedLead (s : String) : Lead :=
  { source := Source.google, businessName := s,
    status := Status.new, createdAt := 0, updatedAt := 0 }

/-- Eleven distinct candidate leads, so a full-failure run produces eleven
error messages. -/
def elevenLeads : List Lead :=
  ["b00", "b01", "b02", "b03", "b04", "b05", "b06", "b07", "b08", "b09", "b10"].map namedLead

/-- The per-failure message `saveLeadsToAirtable` accumulates for a lead named
`s` under `failingStore`. -/
def failMsg (s : String) : String :=
  "Failed to save " ++ s ++ ": INVALID_VALUE_FOR_COLUMN"

/-- Claim C6 against the code: a run accumulating eleven error messages writes
an error log holding `errors.slice(0, 10)` — the FIRST ten (earliest) messages
— so the eleventh, most recent message is dropped, although the code's own
comment says the last ten are kept. -/
theorem errorLog_keeps_first_ten :
    (saveLeadsToAirtable failingStore elevenLeads).errors
      = ["b00", "b01", "b02", "b03", "b04", "b05",
         "b06", "b07", "b08", "b09", "b10"].map failMsg
    ∧ (saveLeadsToAirtable failingStore elevenLeads).errorLog
      = some { savedCount := 0, failedCount := 11,
               errors := ["b00", "b01", "b02", "b03", "b04",
                          "b05", "b06", "b07", "b08", "b09"].map failMsg }
    ∧ failMsg "b10"
        ∉ (["b00", "b01", "b02", "b03", "b04",
            "b05", "b06", "b07", "b08", "b09"].map failMsg) :=
  ⟨rfl, rfl, by decide⟩

/-- Claim C9: a lead with no Instagram handle, no email, no address and no
phone (empty or absent) emits no identity key, so the dedup filter accepts it
against every snapshot. -/
theorem keyless_lead_always_accepted (existing : List String) (l : Lead)
    (h1 : truthy l.instagramHandle = false) (h2 : truthy l.email = false)
    (h3 : truthy l.address = false) (h4 : truthy l.phone = false) :
    leadIdentifiers l = [] ∧ isNewLead existing l = true := by
  constructor
  · unfold leadIdentifiers
    simp [h1, h2, h3, h4]
  · unfold isNewLead
    simp [h1, h2, h3, h4]

/-- A lead with only a business name; its double is already in the snapshot. -/
def bareLead : Lead :=
  { source := Source.google, businessName := "Joes Cafe",
    status := Status.new, createdAt := 0, updatedAt := 0 }

/-- Snapshot record with the same business name (and nothing else) as
`bareLead`. -/
def bareRecord : ExistingRecord :=
  { businessName := some "Joes Cafe" }

/-- Witness for `keyless_lead_always_accepted`: even against a snapshot that
contains a record with the very same business name, `bareLead` is accepted. -/
theorem keyless_lead_always_accepted_witness :
    leadIdentifiers bareLead = []
    ∧ isNewLead (existingIdentifiers [bareRecord]) bareLead = true :=
  keyless_lead_always_accepted (existingIdentifiers [bareRecord]) bareLead rfl rfl rfl rfl

/-! ### The update operation `updateLeadStatus` -/

/-- Oracle for `table.update`: the outcome of updating a record id with a field
assignment list (it fails when the id is unknown to the store). -/
structure UpdateStore where
  update : String → List (String × String) → Except String Unit

/-- Observable outcome of one `updateLeadStatus` call: the value returned to
the caller and the error written to the console log, if any. -/
structure UpdateOutcome where
  retval : Except String Unit
  loggedError : Option String
deriving Repr

/-- The store-boundary name of each status value. -/
def statusName : Status → String
  | Status.new => "new"
  | Status.contacted => "contacted"
  | Status.replied => "replied"
  | Status.qualified => "qualified"
  | Status.hot_lead => "hot_lead"
  | Status.closed => "closed"

/-- The field assignments `updateLeadStatus` sends to `table.update`: the
status, the notes when truthy, and `Last Contacted At` (the current time) only
when the status is `contacted`. -/
def updateStatusFields (now : Nat) (status : Status) (notes : Option String) :
    List (String × String) :=
  [("Status", statusName status)]
  ++ (if truthy notes then [("Notes", notes.getD "")] else [])
  ++ (if status = Status.contacted then [("Last Contacted At", toString now)] else [])

/-- Embedding of `updateLeadStatus` (src/utils/airtable.ts): the `table.update`
call sits in a try/catch whose catch only logs — the caller always gets a
normal return. -/
def updateLeadStatus (store : UpdateStore) (now : Nat) (leadId : String)
    (status : Status) (notes : Option String) : UpdateOutcome :=
  match store.update leadId (updateStatusFields now status notes) with
  | Except.ok _ => { retval := Except.ok (), loggedError := none }
  | Except.error e => { retval := Except.ok (), loggedError := some e }

/-- A store knowing only the record id `rec123`: updating any other id fails. -/
def oneRecordStore : UpdateStore :=
  { update := fun id _ =>
      if id == "rec123" then Except.ok () else Except.error "NOT_FOUND" }

/-- Claim C7 fails on the code: for an id unknown to the store the underlying
update does fail, but `updateLeadStatus` catches the error and returns
normally — no StoreError is surfaced to the caller. -/
theorem updateLeadStatus_swallows_error_cex :
    oneRecordStore.update "recUnknown" (updateStatusFields 0 Status.contacted none)
      = Except.error "NOT_FOUND"
    ∧ (updateLeadStatus oneRecordStore 0 "recUnknown" Status.contacted none).retval
      = Except.ok () :=
  ⟨rfl, rfl⟩

/-- Claim C7 (amended): when the store's update fails (e.g. unknown id),
`updateLeadStatus` catches the error, logs it, and still returns normally to
the caller; the failure is never surfaced. -/
theorem updateLeadStatus_catches_store_error (store : UpdateStore) (now : Nat)
    (leadId : String) (status : Status) (notes : Option String) (e : String)
    (h : store.update leadId (updateStatusFields now status notes) = Except.error e) :
    (updateLeadStatus store now leadId status notes).retval = Except.ok ()
    ∧ (updateLeadStatus store now leadId status notes).loggedError = some e := by
  unfold updateLeadStatus
  rw [h]
  exact ⟨rfl, rfl⟩

/-- Witness for `updateLeadStatus_catches_store_error` at the unknown id. -/
theorem updateLeadStatus_catches_store_error_witness :
    (updateLeadStatus oneRecordStore 0 "recUnknown" Status.contacted none).retval
      = Except.ok ()
    ∧ (updateLeadStatus oneRecordStore 0 "recUnknown" Status.contacted none).loggedError
      = some "NOT_FOUND" :=
  updateLeadStatus_catches_store_error oneRecordStore 0 "recUnknown" Status.contacted none
    "NOT_FOUND" rfl

/-! ### The normalizers: `convertGooglePlaceToLead` and `convertToLead` -/

/-- GooglePlace (src/types/index.ts); numeric payloads are modelled as `Nat`. -/
structure GooglePlace where
  placeId : String
  name : String
  address : String
  phone : Option String := none
  website : Option String := none
  rating : Option Nat := none
  reviewCount : Option Nat := none
  types : List String := []
  businessStatus : Option String := none
  hours : List (String × String) := []
  priceLevel : Option Nat := none

/-- Embedding of `convertGooglePlaceToLead` (src/scrapers/google.ts); `now` is
the normalization time of both `createdAt` and `updatedAt`. -/
def convertGooglePlaceToLead (now : Nat) (place : GooglePlace) (city category : String) :
    Lead :=
  { source := Source.google
    businessName := place.name
    email := none
    phone := place.phone
    website := place.website
    address := some place.address
    description := some
      (((if truthyN place.rating then "⭐ " ++ toString (place.rating.getD 0) ++ "/5" else "")
        ++ " "
        ++ (if truthyN place.reviewCount then
              "(" ++ toString (place.reviewCount.getD 0) ++ " reviews)"
            else "")).trim)
    rating := place.rating
    reviewCount := place.reviewCount
    category := category
    city := city
    location := place.address
    businessHours := place.hours
    status := Status.new
    createdAt := now
    updatedAt := now }

/-- A raw Instagram post as scraped (`item.posts[]`). -/
structure InstagramRawPost where
  id : String
  caption : Option String := none
  displayUrl : String
  likesCount : Option Nat := none
  commentsCount : Option Nat := none
  timestamp : Nat

/-- A raw Instagram profile item as scraped (the `any`-typed `item`). -/
structure InstagramItem where
  ownerUsername : String
  ownerFullName : Option String := none
  ownerBio : Option String := none
  ownerFollowersCount : Nat := 0
  ownerIsVerified : Bool := false
  posts : List InstagramRawPost := []
  email : Option String := none
  ownerEmail : Option String := none
  contactEmail : Option String := none
  website : Option String := none

/-- JavaScript `a || b` on optional strings: `b` when `a` is falsy. -/
def jsOr (a b : Option String) : Option String :=
  if truthy a then a else b

/-- The regex-based bio extractors of `convertToLead`, as oracles: the list of
email-like matches in a bio, the list of phone-like matches, the first URL-like
match, and the keyword-based category classifier.  The lifecycle claims hold
for every choice of these string matchers. -/
structure BioExtractors where
  emailsInBio : String → List String
  phonesInBio : String → List String
  websiteInBio : String → Option String
  categorize : String → String

/-- `extractWebsiteFromBio`: returns nothing on a falsy bio, otherwise the
first URL-like match. -/
def extractWebsiteFromBio (ext : BioExtractors) : Option String → Option String
  | none => none
  | some b => if b == "" then none else ext.websiteInBio b

/-- `replace(/[\s-]/g, '')` applied to the matched phone text. -/
def stripSpaceDash (s : String) : String :=
  String.mk (s.data.filter (fun c => !(c == ' ' || c == '-')))

/-- Embedding of `convertToLead` (the Instagram normalizer in
src/scrapers/google.ts): first three posts mapped to `InstagramPost` (JS
timestamps are seconds × 1000), email from the bio matches or the item fields
(first truthy wins), phone from the first bio match with spaces and dashes
stripped, website from the item or the bio, a fixed Melbourne locale, and the
lifecycle fields `status = new`, `createdAt = updatedAt = now`. -/
def convertToLead (ext : BioExtractors) (now : Nat) (item : InstagramItem) : Lead :=
  let recentPosts : List InstagramPost :=
    (item.posts.take 3).map (fun p =>
      { id := p.id
        caption := p.caption.getD ""
        imageUrl := p.displayUrl
        likeCount := p.likesCount.getD 0
        commentCount := p.commentsCount.getD 0
        postedAt := p.timestamp * 1000 })
  let bioEmails : List String :=
    match item.ownerBio with
    | some b => ext.emailsInBio b
    | none => []
  let email : Option String :=
    jsOr bioEmails.head? (jsOr item.email (jsOr item.ownerEmail item.contactEmail))
  let phoneMatches : List String :=
    match item.ownerBio with
    | some b => ext.phonesInBio b
    | none => []
  { source := Source.instagram
    businessName :=
      (if truthy item.ownerFullName then item.ownerFullName.getD "" else item.ownerUsername)
    ownerName := item.ownerFullName
    email := email
    phone := phoneMatches.head?.map stripSpaceDash
    instagramHandle := some item.ownerUsername
    website := jsOr item.website (extractWebsiteFromBio ext item.ownerBio)
    bio := item.ownerBio
    followerCount := some item.ownerFollowersCount
    category := ext.categorize (item.ownerBio.getD "")
    city := "melbourne"
    location := "Melbourne, Australia"
    recentPosts := recentPosts
    status := Status.new
    createdAt := now
    updatedAt := now }

/-- Claim C8: both normalizers produce a lead with status `new`, with
`createdAt` and `updatedAt` both equal to the normalization time, and with
`source` equal to the originating adapter's tag (`google` resp. `instagram`),
for every raw input. -/
theorem normalizer_lifecycle_fields :
    (∀ (now : Nat) (place : GooglePlace) (city category : String),
      (convertGooglePlaceToLead now place city category).status = Status.new
      ∧ (convertGooglePlaceToLead now place city category).createdAt = now
      ∧ (convertGooglePlaceToLead now place city category).updatedAt = now
      ∧ (convertGooglePlaceToLead now place city category).source = Source.google)
    ∧ (∀ (ext : BioExtractors) (now : Nat) (item : InstagramItem),
      (convertToLead ext now item).status = Status.new
      ∧ (convertToLead ext now item).createdAt = now
      ∧ (convertToLead ext now item).updatedAt = now
      ∧ (convertToLead ext now item).source = Source.instagram) :=
  ⟨fun _ _ _ _ => ⟨rfl, rfl, rfl, rfl⟩, fun _ _ _ => ⟨rfl, rfl, rfl, rfl⟩⟩

end GrowthAgent
